import Mathlib

/-!
Verification of `src/services/easyocr_extract.py`.

The script is embedded shallowly:

* A decoded image (`numpy` array) is a `Raster`: a list of rows of pixels.
  Pixel contents are abstract (`Nat`); only structure and dimensions matter.
* External capabilities (`os.path.exists`, `os.path.getsize`, `cv2.imread`,
  `cv2.resize`, `easyocr.Reader` construction and `reader.readtext`) are
  fields of an `Env` record supplied to the embedded program.  `readtext`
  returning `none` models the engine raising an exception for that raster;
  only the text component (`result[1]`) of each detected fragment is kept,
  since the script discards positions and confidences.
* Python binary64 arithmetic in the resize step is modelled by two rounding
  functions `fdiv`/`fmul` in `Env`; theorems that need IEEE faithfulness
  assume the standard correct-rounding contract (relative error at most
  2^-53) for the calls the script makes.  `int()` on a positive value is
  rational `Int.floor`.
* The filesystem touched by the per-rotation scratch files is an association
  list `FS` from paths to rasters, threaded through the run.
* Exceptions caught at the outer boundary become the `Outcome.err` branch;
  the emitted JSON object is modelled by the `Outcome` datatype (JSON
  serialization itself is an external primitive outside the core).
-/

namespace EasyOCR

abbrev Pixel := Nat

/-- A decoded image: list of rows, each row a list of pixels. -/
abbrev Raster := List (List Pixel)

/-- Source `img.shape[0]`: number of rows. -/
def height (img : Raster) : Nat := img.length

/-- Source `img.shape[1]`: number of columns (length of the first row). -/
def width (img : Raster) : Nat := (img.headD []).length

/-- Embedding of `cv2.rotate(img, cv2.ROTATE_90_CLOCKWISE)`:
`dst[i][j] = src[H-1-j][i]`. -/
def rotate90CW (img : Raster) : Raster := img.transpose.map List.reverse

/-- Embedding of `cv2.rotate(img, cv2.ROTATE_180)`: reverse rows and columns. -/
def rotate180 (img : Raster) : Raster := (img.map List.reverse).reverse

/-- Embedding of `cv2.rotate(img, cv2.ROTATE_90_COUNTERCLOCKWISE)`:
`dst[i][j] = src[j][W-1-i]`. -/
def rotate90CCW (img : Raster) : Raster := img.transpose.reverse

/-- Dispatch of `cv2.rotate` on the `rotateCode` constants
(`ROTATE_90_CLOCKWISE = 0`, `ROTATE_180 = 1`,
`ROTATE_90_COUNTERCLOCKWISE = 2`). -/
def cvRotate (img : Raster) (code : Nat) : Raster :=
  match code with
  | 0 => rotate90CW img
  | 1 => rotate180 img
  | 2 => rotate90CCW img
  | _ => img

/-- Interpolation modes of `cv2.resize`; the script uses `INTER_AREA`. -/
inductive Interp where
  | area
  | linear
deriving DecidableEq, Repr

/-- The single JSON object a run writes to stdout:
`{"success": true, "text": t}` or `{"success": false, "error": e}`. -/
inductive Outcome where
  | ok (text : String)
  | err (msg : String)
deriving DecidableEq, Repr

/-- Scratch filesystem: newest-first association list from path to raster. -/
abbrev FS := List (String × Raster)

/-- Embedding of `cv2.imwrite(p, img)`: (over)write the file at `p`. -/
def fsWrite (fs : FS) (p : String) (img : Raster) : FS := (p, img) :: fs

/-- Contents currently stored at `p`, if any. -/
def fsLookup (fs : FS) (p : String) : Option Raster :=
  (fs.find? (fun e => e.1 == p)).map (·.2)

/-- Embedding of `os.remove(p)` (with the script's `except: pass`: removing a missing
file is a no-op). -/
def fsRemove (fs : FS) (p : String) : FS := fs.filter (fun e => e.1 != p)

/-- External capabilities consumed by the script. -/
structure Env where
  /-- Capability `os.path.exists` -/
  path_exists : String → Bool
  /-- Capability `os.path.getsize` -/
  getsize : String → Nat
  /-- Capability `cv2.imread`: `none` models a decode failure (`None` in Python). -/
  imread : String → Option Raster
  /-- Capability `cv2.resize img (new_width, new_height) interpolation` -/
  resize : Raster → Int → Int → Interp → Raster
  /-- binary64 division, as performed by `a / b` on Python floats -/
  fdiv : ℚ → ℚ → ℚ
  /-- binary64 multiplication, as performed by `a * b` on Python floats -/
  fmul : ℚ → ℚ → ℚ
  /-- Constructor `easyocr.Reader(['en'], gpu=False, verbose=False)`: `some e` models
  construction raising an exception with message `e`. -/
  readerInitError : Option String
  /-- Capability `reader.readtext` on the raster staged in the scratch file; `none`
  models the recognition attempt raising; `some frags` yields the detected
  fragments' text components in detection order. -/
  readtext : Raster → Option (List String)

/-- Constant `max_dimension = 3000`. -/
def max_dimension : Nat := 3000

/-- Lines 36–38: `scale = max_dimension / max(height, width)`,
`new_width = int(width * scale)`, `new_height = int(height * scale)`,
with `int()` of a positive value being the floor. -/
def newDims (env : Env) (img : Raster) : Int × Int :=
  let scale : ℚ :=
    env.fdiv (max_dimension : ℚ) ((max (height img) (width img) : ℕ) : ℚ)
  (⌊env.fmul ((width img : ℕ) : ℚ) scale⌋,
   ⌊env.fmul ((height img : ℕ) : ℚ) scale⌋)

/-- Lines 33–39: downscale when a dimension exceeds `max_dimension`,
otherwise leave the raster untouched. -/
def resizeStep (env : Env) (img : Raster) : Raster :=
  if height img > max_dimension || width img > max_dimension then
    env.resize img (newDims env img).1 (newDims env img).2 Interp.area
  else img

/-- Lines 57–58: the fixed receipt vocabulary. -/
def common_words : List String :=
  ["total", "tax", "subtotal", "receipt", "date", "store", "invoice",
   "paid", "change", "cash", "card", "amount", "qty", "price"]

/-- Whether `needle` matches at the head of `hay`. -/
def subAt : List Char → List Char → Bool
  | [], _ => true
  | _ :: _, [] => false
  | a :: as, b :: bs => a == b && subAt as bs

/-- Whether `needle` occurs somewhere in `hay` (Python's `needle in hay`). -/
def hasSub (hay needle : List Char) : Bool :=
  match hay with
  | [] => subAt needle []
  | _ :: t => subAt needle hay || hasSub t needle

/-- Python `needle in hay` on strings. -/
def strIn (needle hay : String) : Bool := hasSub hay.data needle.data

/-- Python `str.lower()` (character-wise, which covers the ASCII
vocabulary the script compares against). -/
def lowerStr (s : String) : String := ⟨s.data.map Char.toLower⟩

/-- Lines 71–75: `text.lower()`, count vocabulary words occurring in it,
`score = len(text) + word_count * 100`. -/
def scoreOf (text : String) : Nat :=
  let text_lower := lowerStr text
  let word_count := common_words.countP (fun word => strIn word text_lower)
  text.length + word_count * 100

/-- Embedding of `name.replace('°', 'd').replace(' ', '')`: both patterns are single
characters, so the replacements are the character-wise substitution of
`'°'` by `'d'` followed by deletion of every space. -/
def sanitizeName (name : String) : String :=
  ⟨(name.data.map (fun c => if c = '°' then 'd' else c)).filter
    (fun c => c ≠ ' ')⟩

/-- Line 62: scratch path for one rotation,
`image_path + '_rot_' + name.replace('°','d').replace(' ','') + '.jpg'`. -/
def tempPath (image_path rotation_name : String) : String :=
  image_path ++ "_rot_" ++ sanitizeName rotation_name ++ ".jpg"

/-- Lines 78–80: replace the running best only on a strictly greater
score. -/
def updateBest (best : String × Nat) (text : String) (score : Nat) :
    String × Nat :=
  if score > best.2 then (text, score) else best

/-- The selector's fold step over already-scored candidates (used to state
properties of the running-best loop). -/
def selStep (best : String × Nat) (cand : String × Nat) : String × Nat :=
  updateBest best cand.1 cand.2

/-- Lines 60–89, one iteration: stage the rotated raster in the scratch
file, attempt recognition on it, score and update the running best on
success, skip on failure, and in either case remove the scratch file
(the `finally` block). -/
def tryRotation (env : Env) (image_path : String)
    (acc : (String × Nat) × FS) (rot : Nat × Raster × String) :
    (String × Nat) × FS :=
  let temp_path := tempPath image_path rot.2.2
  let fs := fsWrite acc.2 temp_path rot.2.1
  match (fsLookup fs temp_path).bind env.readtext with
  | some results =>
      let text := String.intercalate " " results
      let score := scoreOf text
      (updateBest acc.1 text score, fsRemove fs temp_path)
  | none => (acc.1, fsRemove fs temp_path)

/-- Lines 46–51: the four rotation candidates, in the script's fixed
order.  First components are the Python literals (`0`, then the `cv2`
rotate codes); the third is the `rotation_name`. -/
def rotations (img : Raster) : List (Nat × Raster × String) :=
  [(0, img, "original"),
   (0, cvRotate img 0, "90° CW"),
   (1, cvRotate img 1, "180°"),
   (2, cvRotate img 2, "90° CCW")]

/-- Lines 53–89: the scoring loop with running best `("", 0)`. -/
def runRotations (env : Env) (image_path : String) (img : Raster)
    (fs : FS) : (String × Nat) × FS :=
  (rotations img).foldl (tryRotation env image_path) (("", 0), fs)

/-- Stringified numpy shape, as interpolated into the zero-dimension
message (colour images decode with 3 channels). -/
def shapeStr (img : Raster) : String :=
  "(" ++ toString (height img) ++ ", " ++ toString (width img) ++ ", 3)"

/-- Lines 11–105: `extract_text`, returning the emitted JSON object and
the final scratch filesystem.  The outer `except` converts any raised
validation or initialization error into the failure object. -/
def extract_text (env : Env) (image_path : String) (fs : FS) :
    Outcome × FS :=
  if !env.path_exists image_path then
    (.err ("File not found: " ++ image_path), fs)
  else if env.getsize image_path == 0 then
    (.err ("File is empty: " ++ image_path), fs)
  else
    match env.imread image_path with
    | none =>
        (.err ("Cannot read image file (corrupted or invalid format): " ++
          image_path), fs)
    | some img =>
        if height img == 0 || width img == 0 then
          (.err ("Image has zero dimensions: " ++ shapeStr img), fs)
        else
          let img := resizeStep env img
          match env.readerInitError with
          | some e => (.err e, fs)
          | none =>
              let r := runRotations env image_path img fs
              (.ok r.1.1, r.2)

/-- Lines 107–116: the `__main__` block.  Returns the objects written to
stdout, the process exit status, and the final filesystem. -/
def mainRun (env : Env) (argv : List String) (fs : FS) :
    List Outcome × Nat × FS :=
  if argv.length < 2 then
    ([.err "No image path provided"], 1, fs)
  else
    let image_path := argv.getD 1 ""
    let r := extract_text env image_path fs
    ([r.1], 0, r.2)

/-! ### Concrete environments (for concrete runs of the embedded script) -/

/-- A fully valid world over a 1×1 image, parameterized by the
recognition behaviour; float operations are exact. -/
def baseEnv (rt : Raster → Option (List String)) : Env where
  path_exists := fun _ => true
  getsize := fun _ => 1
  imread := fun _ => some [[1]]
  resize := fun img _ _ _ => img
  fdiv := fun a b => a / b
  fmul := fun a b => a * b
  readerInitError := none
  readtext := rt

/-- World in which every recognition attempt raises. -/
def envC1 : Env := baseEnv (fun _ => none)

/-- World in which recognition detects two fragments. -/
def envC2 : Env := baseEnv (fun _ => some ["TOTAL", "1.00"])

/-- World in which recognition succeeds with no detected fragments. -/
def envC4 : Env := baseEnv (fun _ => some [])

/-- World in which the input path does not exist. -/
def envC5 : Env := { baseEnv (fun _ => none) with path_exists := fun _ => false }

/-- World for driving `mainRun`. -/
def envC8 : Env := baseEnv (fun _ => none)

/-- World for exercising the scratch-file discipline. -/
def envC9 : Env := baseEnv (fun _ => some ["x"])

/-- World in which recognition detects a receipt-like fragment. -/
def envC10 : Env := baseEnv (fun _ => some ["TOTAL", "5.00"])

/-- The binary64 value of `3000/4177` (the exact rational represented by
the IEEE double `0.7182188173330141`). -/
def dval : ℚ := 6469139996222881 / 9007199254740992

/-- A 4177×100 raster (larger dimension over the 3000 threshold). -/
def imgC6 : Raster := List.replicate 4177 (List.replicate 100 0)

/-- World whose float division returns the true binary64 quotient at the
point `3000/4177` (exact elsewhere, multiplication exact), and whose
resize primitive records the requested target dimensions. -/
def envC6 : Env :=
  { baseEnv (fun _ => none) with
    fdiv := fun a b => if a = 3000 ∧ b = 4177 then dval else a / b,
    resize := fun _ nw nh _ => [[nw.toNat, nh.toNat]] }

/-- A 6000×4000 raster (the spec's oversized example). -/
def imgC6W : Raster := List.replicate 6000 (List.replicate 4000 0)

/-- World with exact float operations (a valid rounding model, since the
correct-rounding contract allows zero error). -/
def envC6W : Env := baseEnv (fun _ => none)

/-! ### Spec-side definitions (for refinement comparisons)

These follow the specification's words, to be compared with the
definitions translated from the source. -/

/-- The spec's `keywordHitCount`: the number of distinct vocabulary terms
occurring as a case-insensitive substring of the text (case-insensitivity
taken as lowering both sides; `dedup` makes distinctness explicit). -/
def specKeywordHits (text : String) : Nat :=
  ((common_words.filter
    (fun w => strIn (lowerStr w) (lowerStr text))).dedup).length

/-- The spec's scoring formula:
`length(concatenatedText) + 100 * keywordHitCount`. -/
def specScore (text : String) : Nat :=
  text.length + 100 * specKeywordHits text

/-- The ideal resize targets under exact (real) arithmetic: each
dimension scaled by exactly `3000 / max(height, width)` and truncated. -/
def exactDims (img : Raster) : Int × Int :=
  (⌊(width img : ℚ) * (max_dimension : ℚ) /
      ((max (height img) (width img) : ℕ) : ℚ)⌋,
   ⌊(height img : ℚ) * (max_dimension : ℚ) /
      ((max (height img) (width img) : ℕ) : ℚ)⌋)

/-! ### Helper lemmas -/

lemma fsLookup_fsWrite (fs : FS) (p : String) (img : Raster) :
    fsLookup (fsWrite fs p img) p = some img := by
  simp [fsLookup, fsWrite]

lemma fsRemove_fsWrite (fs : FS) (p : String) (img : Raster) :
    fsRemove (fsWrite fs p img) p = fsRemove fs p := by
  simp [fsRemove, fsWrite]

/-- Canonical form of one rotation attempt: the running best is updated
exactly on recognition success, and the scratch file is gone afterwards
in either case. -/
lemma tryRotation_eq (env : Env) (path : String)
    (acc : (String × Nat) × FS) (rot : Nat × Raster × String) :
    tryRotation env path acc rot =
      ((match env.readtext rot.2.1 with
        | some rs =>
            updateBest acc.1 (String.intercalate " " rs)
              (scoreOf (String.intercalate " " rs))
        | none => acc.1),
       fsRemove acc.2 (tempPath path rot.2.2)) := by
  cases h : env.readtext rot.2.1 <;>
    simp [tryRotation, fsLookup_fsWrite, fsRemove_fsWrite, h]

lemma tryRotation_snd (env : Env) (path : String)
    (acc : (String × Nat) × FS) (rot : Nat × Raster × String) :
    (tryRotation env path acc rot).2 =
      fsRemove acc.2 (tempPath path rot.2.2) := by
  rw [tryRotation_eq]

lemma common_words_lower : ∀ w ∈ common_words, lowerStr w = w := by decide

lemma common_words_nodup : common_words.Nodup := by decide

/-- The score computed by the script coincides with the spec's formula:
the vocabulary is already lowercase and duplicate-free, so counting the
matching list entries counts distinct case-insensitive keyword hits. -/
lemma scoreOf_eq_specScore (text : String) : scoreOf text = specScore text := by
  have h1 : List.filter (fun w => strIn (lowerStr w) (lowerStr text))
        common_words =
      List.filter (fun w => strIn w (lowerStr text)) common_words :=
    List.filter_congr (fun w hw => by rw [common_words_lower w hw])
  simp only [scoreOf, specScore, specKeywordHits, h1,
    List.countP_eq_length_filter,
    List.Nodup.dedup ((common_words_nodup).filter _)]
  ring

lemma selStep_snd_le (b c : String × Nat) : b.2 ≤ (selStep b c).2 := by
  simp only [selStep, updateBest]
  split <;> omega

lemma selStep_snd_ge (b c : String × Nat) : c.2 ≤ (selStep b c).2 := by
  simp only [selStep, updateBest]
  split <;> omega

lemma selStep_skip {b c : String × Nat} (h : c.2 ≤ b.2) : selStep b c = b := by
  simp only [selStep, updateBest]
  rw [if_neg]
  omega

lemma foldl_selStep_le (l : List (String × Nat)) (b : String × Nat) :
    b.2 ≤ (List.foldl selStep b l).2 := by
  induction l generalizing b with
  | nil => simp
  | cons c t ih =>
      rw [List.foldl_cons]
      exact le_trans (selStep_snd_le b c) (ih (selStep b c))

/-! ### Claims -/

/-- C3: the selector tracks a running best initialized to `("", 0)` and a
candidate replaces the running best only when its score is strictly
greater; for two candidates with identical scores the one evaluated
earlier wins — the later one can be deleted without changing the fold's
outcome, and a candidate whose score merely ties the running best leaves
it unchanged. -/
theorem C3_tie_earlier_wins :
    (∀ (b : String × Nat) (t : String), selStep b (t, b.2) = b) ∧
    (∀ (xs ys zs : List (String × Nat)) (t₁ t₂ : String) (s : Nat),
      List.foldl selStep ("", 0) (xs ++ (t₁, s) :: (ys ++ (t₂, s) :: zs)) =
      List.foldl selStep ("", 0) (xs ++ (t₁, s) :: (ys ++ zs))) := by
  constructor
  · intro b t
    exact selStep_skip (le_refl _)
  · intro xs ys zs t₁ t₂ s
    simp only [List.foldl_append, List.foldl_cons]
    congr 1
    apply selStep_skip
    exact le_trans (selStep_snd_ge _ (t₁, s))
      (foldl_selStep_le ys (selStep (List.foldl selStep ("", 0) xs) (t₁, s)))

/-- C7: the rotation candidate generator yields exactly four candidates,
in the fixed order original, 90° CW, 180°, 90° CCW, the first being the
input raster itself (the generator produces new rasters and never alters
the input), and the scoring loop folds over them in exactly that order. -/
theorem C7_rotations_fixed_order : ∀ img : Raster,
    (rotations img).length = 4 ∧
    (rotations img).map (fun r => r.2.2) =
      ["original", "90° CW", "180°", "90° CCW"] ∧
    (rotations img).map (fun r => r.2.1) =
      [img, rotate90CW img, rotate180 img, rotate90CCW img] ∧
    ∀ (env : Env) (path : String) (st : (String × Nat) × FS),
      (rotations img).foldl (tryRotation env path) st =
        tryRotation env path
          (tryRotation env path
            (tryRotation env path
              (tryRotation env path st (0, img, "original"))
              (0, rotate90CW img, "90° CW"))
            (1, rotate180 img, "180°"))
          (2, rotate90CCW img, "90° CCW") := by
  intro img
  exact ⟨rfl, rfl, rfl, fun env path st => rfl⟩

/-- C9: the scratch file staged for a rotation attempt is removed on every
exit path of that attempt (recognition success and failure alike), the
whole run leaves the filesystem with all four scratch paths removed, and
no scratch entry survives in the final filesystem. -/
theorem C9_scratch_cleanup :
    (∀ (env : Env) (path : String) (acc : (String × Nat) × FS)
        (rot : Nat × Raster × String),
      (tryRotation env path acc rot).2 =
        fsRemove acc.2 (tempPath path rot.2.2)) ∧
    (∀ (env : Env) (path : String) (img : Raster) (fs : FS),
      (runRotations env path img fs).2 =
        fsRemove (fsRemove (fsRemove (fsRemove fs
          (tempPath path "original")) (tempPath path "90° CW"))
          (tempPath path "180°")) (tempPath path "90° CCW")) ∧
    (∀ (env : Env) (path : String) (img : Raster) (fs : FS) (r : Raster),
      (tempPath path "original", r) ∉ (runRotations env path img fs).2 ∧
      (tempPath path "90° CW", r) ∉ (runRotations env path img fs).2 ∧
      (tempPath path "180°", r) ∉ (runRotations env path img fs).2 ∧
      (tempPath path "90° CCW", r) ∉ (runRotations env path img fs).2) := by
  refine ⟨tryRotation_snd, ?_, ?_⟩
  · intro env path img fs
    simp [runRotations, rotations, tryRotation_snd]
  · intro env path img fs r
    have h2 : (runRotations env path img fs).2 =
        fsRemove (fsRemove (fsRemove (fsRemove fs
          (tempPath path "original")) (tempPath path "90° CW"))
          (tempPath path "180°")) (tempPath path "90° CCW") := by
      simp [runRotations, rotations, tryRotation_snd]
    rw [h2]
    simp [fsRemove, List.mem_filter]

/-- Witness for C9: after a concrete run that starts with the first
scratch path already present, that path is absent from the final
filesystem. -/
theorem C9_witness :
    (tempPath "p.jpg" "original", ([[1]] : Raster)) ∉
      (runRotations envC9 "p.jpg" [[1]]
        [(tempPath "p.jpg" "original", [[1]])]).2 :=
  (C9_scratch_cleanup.2.2 envC9 "p.jpg" [[1]]
    [(tempPath "p.jpg" "original", [[1]])] [[1]]).1

/-- If every processed candidate's score stays at or below the running
best's score, the running best never changes. -/
lemma foldl_tryRotation_fst_const (env : Env) (path : String) :
    ∀ (rots : List (Nat × Raster × String)) (b : String × Nat) (fs : FS),
      (∀ rot ∈ rots, ∀ rs, env.readtext rot.2.1 = some rs →
        scoreOf (String.intercalate " " rs) ≤ b.2) →
      (List.foldl (tryRotation env path) (b, fs) rots).1 = b := by
  intro rots
  induction rots with
  | nil => intro b fs _; rfl
  | cons rot t ih =>
      intro b fs h
      rw [List.foldl_cons]
      have h1 : tryRotation env path (b, fs) rot =
          (b, fsRemove fs (tempPath path rot.2.2)) := by
        rw [tryRotation_eq]
        cases hr : env.readtext rot.2.1 with
        | none => rfl
        | some rs =>
            have hle := h rot (List.mem_cons_self _ _) rs hr
            simp only [updateBest]
            rw [if_neg (by omega)]
      rw [h1]
      exact ih b _ (fun r hr rs hrs => h r (List.mem_cons_of_mem _ hr) rs hrs)

/-- C2: for a candidate whose recognition succeeds with fragments `rs`,
the text offered to the selector is the fragments' texts joined in
detection order by single spaces, and the score used is exactly the
spec's formula: length plus 100 per distinct case-insensitive keyword
hit from the fixed 14-term vocabulary, each keyword at most once. -/
theorem C2_candidate_text_and_score (env : Env) (path : String)
    (acc : (String × Nat) × FS) (n : Nat) (rimg : Raster) (name : String)
    (rs : List String) (h : env.readtext rimg = some rs) :
    tryRotation env path acc (n, rimg, name) =
      (updateBest acc.1 (String.intercalate " " rs)
        (specScore (String.intercalate " " rs)),
       fsRemove acc.2 (tempPath path name)) := by
  rw [tryRotation_eq]
  simp [h, scoreOf_eq_specScore]

/-- Witness for C2 at a concrete recognition result. -/
theorem C2_witness :
    tryRotation envC2 "r.jpg" (("", 0), []) (0, [[1]], "original") =
      (updateBest ("", 0) "TOTAL 1.00" (specScore "TOTAL 1.00"),
       fsRemove [] (tempPath "r.jpg" "original")) :=
  C2_candidate_text_and_score envC2 "r.jpg" (("", 0), []) 0 [[1]]
    "original" ["TOTAL", "1.00"] rfl

/-- C4: when no candidate's score exceeds the initial score `0`, the run
reports success with the empty string, not an error. -/
theorem C4_no_positive_score_success_empty (env : Env) (path : String)
    (fs : FS) (img : Raster)
    (h1 : env.path_exists path = true)
    (h2 : env.getsize path ≠ 0)
    (h3 : env.imread path = some img)
    (h4 : height img ≠ 0) (h5 : width img ≠ 0)
    (h6 : env.readerInitError = none)
    (h7 : ∀ rot ∈ rotations (resizeStep env img), ∀ rs,
        env.readtext rot.2.1 = some rs →
        scoreOf (String.intercalate " " rs) = 0) :
    (extract_text env path fs).1 = .ok "" := by
  have h2' : (env.getsize path == 0) = false := by
    simp [h2]
  have h4' : (height img == 0) = false := by simp [h4]
  have h5' : (width img == 0) = false := by simp [h5]
  have hf := foldl_tryRotation_fst_const env path
    (rotations (resizeStep env img)) ("", 0) fs
    (fun rot hr rs hrs => le_of_eq (h7 rot hr rs hrs))
  simp [extract_text, h1, h2', h3, h4', h5', h6, runRotations, hf]

/-- Witness for C4: recognition succeeds everywhere with an empty
fragment list, every blob is empty, and the run succeeds with `""`. -/
theorem C4_witness : (extract_text envC4 "p.jpg" []).1 = .ok "" :=
  C4_no_positive_score_success_empty envC4 "p.jpg" [] [[1]]
    rfl (by decide) rfl (by decide) (by decide) rfl
    (fun rot _ rs hrs => by
      cases hrs
      rfl)

/-- C1 (amended): if engine initialization succeeded and the recognition
attempt fails for every candidate raster, the run still reports success:
the emitted JSON is `success=true` with the empty string as text. -/
theorem C1_amended_all_fail_success_empty (env : Env) (path : String)
    (fs : FS) (img : Raster)
    (h1 : env.path_exists path = true)
    (h2 : env.getsize path ≠ 0)
    (h3 : env.imread path = some img)
    (h4 : height img ≠ 0) (h5 : width img ≠ 0)
    (h6 : env.readerInitError = none)
    (h7 : ∀ r : Raster, env.readtext r = none) :
    (extract_text env path fs).1 = .ok "" := by
  have h2' : (env.getsize path == 0) = false := by simp [h2]
  have h4' : (height img == 0) = false := by simp [h4]
  have h5' : (width img == 0) = false := by simp [h5]
  have hf := foldl_tryRotation_fst_const env path
    (rotations (resizeStep env img)) ("", 0) fs
    (fun rot _ rs hrs => by rw [h7] at hrs; cases hrs)
  simp [extract_text, h1, h2', h3, h4', h5', h6, runRotations, hf]

/-- C1 counterexample: a valid 1×1 image on which every one of the four
recognition attempts fails (`readtext` always raises) while engine
initialization succeeded; the run emits `success=true` with text `""`,
not `success=false`, refuting the claim as stated. -/
theorem C1_counterexample_all_fail_reports_success :
    envC1.readtext [[1]] = none ∧
    envC1.readerInitError = none ∧
    extract_text envC1 "receipt.jpg" [] = (.ok "", []) :=
  ⟨rfl, rfl, rfl⟩

/-- Witness for the amended C1 at a concrete all-failing world. -/
theorem C1_witness : (extract_text envC1 "scan.jpg" []).1 = .ok "" :=
  C1_amended_all_fail_success_empty envC1 "scan.jpg" [] [[1]]
    rfl (by decide) rfl (by decide) (by decide) rfl (fun _ => rfl)

/-- C5: validation rejects exactly the four conditions, each with the
message naming it, as an orderly failure report; on any input passing all
four checks (with successful engine initialization) the run proceeds to
recognition and reports a success outcome. -/
theorem C5_validation (env : Env) (path : String) (fs : FS) :
    (env.path_exists path = false →
      extract_text env path fs = (.err ("File not found: " ++ path), fs)) ∧
    (env.path_exists path = true → env.getsize path = 0 →
      extract_text env path fs = (.err ("File is empty: " ++ path), fs)) ∧
    (env.path_exists path = true → env.getsize path ≠ 0 →
      env.imread path = none →
      extract_text env path fs =
        (.err ("Cannot read image file (corrupted or invalid format): " ++
          path), fs)) ∧
    (∀ img : Raster, env.path_exists path = true → env.getsize path ≠ 0 →
      env.imread path = some img → (height img = 0 ∨ width img = 0) →
      extract_text env path fs =
        (.err ("Image has zero dimensions: " ++ shapeStr img), fs)) ∧
    (∀ img : Raster, env.path_exists path = true → env.getsize path ≠ 0 →
      env.imread path = some img → height img ≠ 0 → width img ≠ 0 →
      env.readerInitError = none →
      ∃ t, (extract_text env path fs).1 = .ok t) := by
  refine ⟨?_, ?_, ?_, ?_, ?_⟩
  · intro h
    simp [extract_text, h]
  · intro h1 h2
    simp [extract_text, h1, h2]
  · intro h1 h2 h3
    have h2' : (env.getsize path == 0) = false := by simp [h2]
    simp [extract_text, h1, h2', h3]
  · intro img h1 h2 h3 h4
    have h2' : (env.getsize path == 0) = false := by simp [h2]
    have h4' : (height img == 0 || width img == 0) = true := by
      rcases h4 with h | h <;> simp [h]
    simp [extract_text, h1, h2', h3, h4']
  · intro img h1 h2 h3 h4 h5 h6
    have h2' : (env.getsize path == 0) = false := by simp [h2]
    have h4' : (height img == 0) = false := by simp [h4]
    have h5' : (width img == 0) = false := by simp [h5]
    exact ⟨(runRotations env path (resizeStep env img) fs).1.1,
      by simp [extract_text, h1, h2', h3, h4', h5', h6]⟩

/-- Witness for C5 at a missing path. -/
theorem C5_witness :
    extract_text envC5 "x.jpg" [] =
      (.err ("File not found: " ++ "x.jpg"), []) :=
  (C5_validation envC5 "x.jpg" []).1 rfl

/-- C8: every run emits exactly one outcome object; the exit status is
non-zero exactly when no image path argument was supplied (status `1`
with the usage error message); every run with an argument emits the
`extract_text` outcome and exits with status `0`. -/
theorem C8_single_output_and_exit_status (env : Env) (argv : List String)
    (fs : FS) :
    ((mainRun env argv fs).1.length = 1) ∧
    ((mainRun env argv fs).2.1 ≠ 0 ↔ argv.length < 2) ∧
    (argv.length < 2 →
      mainRun env argv fs = ([.err "No image path provided"], 1, fs)) ∧
    (2 ≤ argv.length →
      mainRun env argv fs =
        ([(extract_text env (argv.getD 1 "") fs).1], 0,
         (extract_text env (argv.getD 1 "") fs).2)) := by
  by_cases h : argv.length < 2 <;> simp [mainRun, h, Nat.not_lt]

/-- Witness for C8: no argument vector yields the usage error and exit
status 1. -/
theorem C8_witness :
    mainRun envC8 [] [] = ([.err "No image path provided"], 1, []) :=
  (C8_single_output_and_exit_status envC8 [] []).2.2.1 (by decide)

/-- The running-best text after the loop is either the initial text or
the concatenated text of one of the successfully recognized candidates. -/
lemma foldl_tryRotation_fst_cases (env : Env) (path : String) :
    ∀ (rots : List (Nat × Raster × String)) (b : String × Nat) (fs : FS),
      (List.foldl (tryRotation env path) (b, fs) rots).1.1 = b.1 ∨
      ∃ rot ∈ rots, ∃ rs, env.readtext rot.2.1 = some rs ∧
        (List.foldl (tryRotation env path) (b, fs) rots).1.1 =
          String.intercalate " " rs := by
  intro rots
  induction rots with
  | nil => intro b fs; left; rfl
  | cons rot t ih =>
      intro b fs
      rw [List.foldl_cons]
      rcases hr : env.readtext rot.2.1 with _ | rs
      · have h1 : tryRotation env path (b, fs) rot =
            (b, fsRemove fs (tempPath path rot.2.2)) := by
          rw [tryRotation_eq]
          simp [hr]
        rw [h1]
        rcases ih b _ with h | ⟨r, hm, rs', hrs, heq⟩
        · left
          exact h
        · right
          exact ⟨r, List.mem_cons_of_mem _ hm, rs', hrs, heq⟩
      · have h1 : tryRotation env path (b, fs) rot =
            (updateBest b (String.intercalate " " rs)
              (scoreOf (String.intercalate " " rs)),
             fsRemove fs (tempPath path rot.2.2)) := by
          rw [tryRotation_eq]
          simp [hr]
        rw [h1]
        have hub : updateBest b (String.intercalate " " rs)
              (scoreOf (String.intercalate " " rs)) = b ∨
            updateBest b (String.intercalate " " rs)
              (scoreOf (String.intercalate " " rs)) =
              (String.intercalate " " rs,
               scoreOf (String.intercalate " " rs)) := by
          unfold updateBest
          split
          · right
            rfl
          · left
            rfl
        rcases hub with hub | hub <;> rw [hub]
        · rcases ih b _ with h | ⟨r, hm, rs', hrs, heq⟩
          · left
            exact h
          · right
            exact ⟨r, List.mem_cons_of_mem _ hm, rs', hrs, heq⟩
        · rcases ih (String.intercalate " " rs,
              scoreOf (String.intercalate " " rs)) _ with h | ⟨r, hm, rs', hrs, heq⟩
          · right
            exact ⟨rot, List.mem_cons_self _ _, rs, hr, h⟩
          · right
            exact ⟨r, List.mem_cons_of_mem _ hm, rs', hrs, heq⟩

/-- C10: whenever the run reports `success=true`, the reported text is
either the empty string or exactly the space-joined fragment text of one
of the attempted rotation candidates. -/
theorem C10_success_text_provenance (env : Env) (path : String) (fs : FS)
    (t : String) (fs' : FS)
    (h : extract_text env path fs = (.ok t, fs')) :
    t = "" ∨ ∃ img : Raster, env.imread path = some img ∧
      ∃ rot ∈ rotations (resizeStep env img), ∃ rs,
        env.readtext rot.2.1 = some rs ∧ t = String.intercalate " " rs := by
  cases h1 : env.path_exists path with
  | false => simp [extract_text, h1] at h
  | true =>
    cases h2 : env.getsize path == 0 with
    | true => simp [extract_text, h1, h2] at h
    | false =>
      rcases h3 : env.imread path with _ | img
      · simp [extract_text, h1, h2, h3] at h
      · cases h4 : (height img == 0 || width img == 0) with
        | true => simp [extract_text, h1, h2, h3, h4] at h
        | false =>
          rcases h5 : env.readerInitError with _ | e
          · have ht : (runRotations env path (resizeStep env img) fs).1.1 = t := by
              simp [extract_text, h1, h2, h3, h4, h5] at h
              exact h.1
            rcases foldl_tryRotation_fst_cases env path
                (rotations (resizeStep env img)) ("", 0) fs with
              hc | ⟨rot, hm, rs, hrs, heq⟩
            · left
              rw [← ht]
              exact hc
            · right
              refine ⟨img, rfl, rot, hm, rs, hrs, ?_⟩
              rw [← ht]
              exact heq
          · simp [extract_text, h1, h2, h3, h4, h5] at h

/-- Witness for C10 at a concrete successful run. -/
theorem C10_witness :
    "TOTAL 5.00" = "" ∨ ∃ img : Raster,
      envC10.imread "p.jpg" = some img ∧
      ∃ rot ∈ rotations (resizeStep envC10 img), ∃ rs,
        envC10.readtext rot.2.1 = some rs ∧
        "TOTAL 5.00" = String.intercalate " " rs :=
  C10_success_text_provenance envC10 "p.jpg" [] "TOTAL 5.00" [] rfl

/-- Sandwich for the once-divided, once-multiplied value under the
correct-rounding contract. -/
lemma prod_bounds (d M s c : ℚ) (hd : 0 ≤ d) (hM : (0:ℚ) < M)
    (hs : |s - 3000 / M| ≤ 3000 / M * (1 / 2 ^ 53))
    (hc : |c - d * s| ≤ d * s * (1 / 2 ^ 53)) :
    d * (3000 / M) * (1 - 1 / 2 ^ 53) ^ 2 ≤ c ∧
    c ≤ d * (3000 / M) * (1 + 1 / 2 ^ 53) ^ 2 := by
  rw [abs_le] at hs hc
  have hq : (0:ℚ) ≤ 3000 / M := by positivity
  have hs2 : s ≤ 3000 / M * (1 + 1 / 2 ^ 53) := by nlinarith [hs.2]
  have hs1 : 3000 / M * (1 - 1 / 2 ^ 53) ≤ s := by nlinarith [hs.1]
  have hs0 : 0 ≤ s := by nlinarith
  have hds2 : d * s ≤ d * (3000 / M) * (1 + 1 / 2 ^ 53) := by
    nlinarith [mul_le_mul_of_nonneg_left hs2 hd]
  have hds1 : d * (3000 / M) * (1 - 1 / 2 ^ 53) ≤ d * s := by
    nlinarith [mul_le_mul_of_nonneg_left hs1 hd]
  constructor
  · have h1 : d * s * (1 - 1 / 2 ^ 53) ≤ c := by nlinarith [hc.1]
    nlinarith [mul_le_mul_of_nonneg_right hds1
      (show (0:ℚ) ≤ 1 - 1 / 2 ^ 53 by norm_num)]
  · have h1 : c ≤ d * s * (1 + 1 / 2 ^ 53) := by nlinarith [hc.2]
    nlinarith [mul_le_mul_of_nonneg_right hds2
      (show (0:ℚ) ≤ 1 + 1 / 2 ^ 53 by norm_num)]

/-- A scaled dimension lands within one unit of its exact value. -/
lemma close_to_exact (d M s c : ℚ) (hd : 0 ≤ d) (hdM : d ≤ M)
    (hM : (3000:ℚ) < M)
    (hs : |s - 3000 / M| ≤ 3000 / M * (1 / 2 ^ 53))
    (hc : |c - d * s| ≤ d * s * (1 / 2 ^ 53)) :
    |c - d * (3000 / M)| ≤ 1 := by
  have hM0 : (0:ℚ) < M := by linarith
  obtain ⟨hlo, hhi⟩ := prod_bounds d M s c hd hM0 hs hc
  have h1 : d * (3000 / M) = d * 3000 / M := by ring
  have hE : d * (3000 / M) ≤ 3000 := by
    rw [h1, div_le_iff₀ hM0]
    nlinarith
  have hE0 : 0 ≤ d * (3000 / M) := by positivity
  rw [abs_le]
  constructor <;> nlinarith

/-- The larger dimension's computed value is confined to `[2999, 3001)`. -/
lemma larger_bounds (M s c : ℚ) (hM : (3000:ℚ) < M)
    (hs : |s - 3000 / M| ≤ 3000 / M * (1 / 2 ^ 53))
    (hc : |c - M * s| ≤ M * s * (1 / 2 ^ 53)) :
    2999 ≤ c ∧ c < 3001 := by
  have hM0 : (0:ℚ) < M := by linarith
  obtain ⟨hlo, hhi⟩ := prod_bounds M M s c (le_of_lt hM0) hM0 hs hc
  have hE : M * (3000 / M) = 3000 := by field_simp
  rw [hE] at hlo hhi
  constructor <;> nlinarith

/-- Values within one unit have floors within one unit. -/
lemma floor_pm_one {e c : ℚ} (h : |c - e| ≤ 1) : |⌊c⌋ - ⌊e⌋| ≤ 1 := by
  rw [abs_le] at h
  have h1 : ⌊e - ((1:ℤ):ℚ)⌋ ≤ ⌊c⌋ := Int.floor_le_floor (by push_cast; linarith)
  have h2 : ⌊c⌋ ≤ ⌊e + ((1:ℤ):ℚ)⌋ := Int.floor_le_floor (by push_cast; linarith)
  rw [Int.floor_sub_int] at h1
  rw [Int.floor_add_int] at h2
  rw [abs_le]
  omega

/-- C6 (amended): whenever `fdiv`/`fmul` satisfy the binary64
correct-rounding contract (relative error at most `2^-53` on nonnegative
operands), an oversized raster is handed to the area-interpolation
resize with the larger target dimension equal to 3000 up to one unit of
float rounding (it lies in `{2999, 3000}`), and each target dimension
within one unit of the exactly proportional truncated value; a raster
with both dimensions at most 3000 is left unchanged. -/
theorem C6_amended_resize (env : Env) (img : Raster)
    (hdiv : ∀ a b : ℚ, 0 ≤ a → 0 < b →
      |env.fdiv a b - a / b| ≤ a / b * (1 / 2 ^ 53))
    (hmul : ∀ a b : ℚ, 0 ≤ a → 0 ≤ b →
      |env.fmul a b - a * b| ≤ a * b * (1 / 2 ^ 53)) :
    ((max_dimension < height img ∨ max_dimension < width img) →
      resizeStep env img =
        env.resize img (newDims env img).1 (newDims env img).2
          Interp.area ∧
      (width img ≤ height img →
        2999 ≤ (newDims env img).2 ∧ (newDims env img).2 ≤ 3000) ∧
      (height img ≤ width img →
        2999 ≤ (newDims env img).1 ∧ (newDims env img).1 ≤ 3000) ∧
      |(newDims env img).1 - (exactDims img).1| ≤ 1 ∧
      |(newDims env img).2 - (exactDims img).2| ≤ 1) ∧
    ((height img ≤ max_dimension ∧ width img ≤ max_dimension) →
      resizeStep env img = img) := by
  constructor
  · intro hbig
    have hMn : max_dimension < max (height img) (width img) := by
      rcases hbig with hb | hb
      · exact lt_of_lt_of_le hb (le_max_left _ _)
      · exact lt_of_lt_of_le hb (le_max_right _ _)
    have hMq : (3000:ℚ) < ((max (height img) (width img) : ℕ) : ℚ) := by
      have : (3000:ℕ) < max (height img) (width img) := hMn
      exact_mod_cast this
    have hMq0 : (0:ℚ) < ((max (height img) (width img) : ℕ) : ℚ) := by
      linarith
    have hmd : ((max_dimension : ℕ) : ℚ) = 3000 := by
      norm_num [max_dimension]
    have hs0 := hdiv ((max_dimension : ℕ) : ℚ)
      ((max (height img) (width img) : ℕ) : ℚ) (by rw [hmd]; norm_num) hMq0
    have hs : |env.fdiv ((max_dimension : ℕ) : ℚ)
          ((max (height img) (width img) : ℕ) : ℚ) -
        3000 / ((max (height img) (width img) : ℕ) : ℚ)| ≤
        3000 / ((max (height img) (width img) : ℕ) : ℚ) * (1 / 2 ^ 53) := by
      rw [← hmd]
      exact hs0
    have hsn : 0 ≤ env.fdiv ((max_dimension : ℕ) : ℚ)
        ((max (height img) (width img) : ℕ) : ℚ) := by
      rw [abs_le] at hs
      have hq : (0:ℚ) ≤ 3000 / ((max (height img) (width img) : ℕ) : ℚ) := by
        positivity
      nlinarith [hs.1]
    have hcw := hmul ((width img : ℕ) : ℚ)
      (env.fdiv ((max_dimension : ℕ) : ℚ)
        ((max (height img) (width img) : ℕ) : ℚ))
      (by positivity) hsn
    have hch := hmul ((height img : ℕ) : ℚ)
      (env.fdiv ((max_dimension : ℕ) : ℚ)
        ((max (height img) (width img) : ℕ) : ℚ))
      (by positivity) hsn
    have hcond : (decide (height img > max_dimension) ||
        decide (width img > max_dimension)) = true := by
      rcases hbig with hb | hb <;> simp [hb]
    refine ⟨?_, ?_, ?_, ?_, ?_⟩
    · simp [resizeStep, hcond]
    · intro hwh
      have hMe : max (height img) (width img) = height img :=
        Nat.max_eq_left hwh
      rw [hMe] at hs hch
      have hb := larger_bounds ((height img : ℕ) : ℚ)
        (env.fdiv ((max_dimension : ℕ) : ℚ) ((height img : ℕ) : ℚ))
        (env.fmul ((height img : ℕ) : ℚ)
          (env.fdiv ((max_dimension : ℕ) : ℚ) ((height img : ℕ) : ℚ)))
        (by rw [← hMe]; exact_mod_cast hMq) hs hch
      have hnd : (newDims env img).2 =
          ⌊env.fmul ((height img : ℕ) : ℚ)
            (env.fdiv ((max_dimension : ℕ) : ℚ)
              ((max (height img) (width img) : ℕ) : ℚ))⌋ := rfl
      rw [hnd, hMe]
      constructor
      · exact Int.le_floor.mpr (by exact_mod_cast hb.1)
      · have : ⌊env.fmul ((height img : ℕ) : ℚ)
            (env.fdiv ((max_dimension : ℕ) : ℚ)
              ((height img : ℕ) : ℚ))⌋ < 3001 :=
          Int.floor_lt.mpr (by exact_mod_cast hb.2)
        omega
    · intro hhw
      have hMe : max (height img) (width img) = width img :=
        Nat.max_eq_right hhw
      rw [hMe] at hs hcw
      have hb := larger_bounds ((width img : ℕ) : ℚ)
        (env.fdiv ((max_dimension : ℕ) : ℚ) ((width img : ℕ) : ℚ))
        (env.fmul ((width img : ℕ) : ℚ)
          (env.fdiv ((max_dimension : ℕ) : ℚ) ((width img : ℕ) : ℚ)))
        (by rw [← hMe]; exact_mod_cast hMq) hs hcw
      have hnd : (newDims env img).1 =
          ⌊env.fmul ((width img : ℕ) : ℚ)
            (env.fdiv ((max_dimension : ℕ) : ℚ)
              ((max (height img) (width img) : ℕ) : ℚ))⌋ := rfl
      rw [hnd, hMe]
      constructor
      · exact Int.le_floor.mpr (by exact_mod_cast hb.1)
      · have : ⌊env.fmul ((width img : ℕ) : ℚ)
            (env.fdiv ((max_dimension : ℕ) : ℚ)
              ((width img : ℕ) : ℚ))⌋ < 3001 :=
          Int.floor_lt.mpr (by exact_mod_cast hb.2)
        omega
    · have hdM : ((width img : ℕ) : ℚ) ≤
          ((max (height img) (width img) : ℕ) : ℚ) := by
        exact_mod_cast Nat.le_max_right (height img) (width img)
      have hcl := close_to_exact ((width img : ℕ) : ℚ)
        ((max (height img) (width img) : ℕ) : ℚ)
        (env.fdiv ((max_dimension : ℕ) : ℚ)
          ((max (height img) (width img) : ℕ) : ℚ))
        (env.fmul ((width img : ℕ) : ℚ)
          (env.fdiv ((max_dimension : ℕ) : ℚ)
            ((max (height img) (width img) : ℕ) : ℚ)))
        (by positivity) hdM hMq hs hcw
      have he : ((width img : ℕ) : ℚ) *
          (3000 / ((max (height img) (width img) : ℕ) : ℚ)) =
          (width img : ℚ) * ((max_dimension : ℕ) : ℚ) /
            ((max (height img) (width img) : ℕ) : ℚ) := by
        rw [hmd]
        ring
      rw [he] at hcl
      exact floor_pm_one hcl
    · have hdM : ((height img : ℕ) : ℚ) ≤
          ((max (height img) (width img) : ℕ) : ℚ) := by
        exact_mod_cast Nat.le_max_left (height img) (width img)
      have hcl := close_to_exact ((height img : ℕ) : ℚ)
        ((max (height img) (width img) : ℕ) : ℚ)
        (env.fdiv ((max_dimension : ℕ) : ℚ)
          ((max (height img) (width img) : ℕ) : ℚ))
        (env.fmul ((height img : ℕ) : ℚ)
          (env.fdiv ((max_dimension : ℕ) : ℚ)
            ((max (height img) (width img) : ℕ) : ℚ)))
        (by positivity) hdM hMq hs hch
      have he : ((height img : ℕ) : ℚ) *
          (3000 / ((max (height img) (width img) : ℕ) : ℚ)) =
          (height img : ℚ) * ((max_dimension : ℕ) : ℚ) /
            ((max (height img) (width img) : ℕ) : ℚ) := by
        rw [hmd]
        ring
      rw [he] at hcl
      exact floor_pm_one hcl
  · intro hsm
    have h1 : (decide (height img > max_dimension) ||
        decide (width img > max_dimension)) = false := by
      simp [Nat.not_lt.mpr hsm.1, Nat.not_lt.mpr hsm.2]
    simp [resizeStep, h1]

/-- C6 counterexample: a 4177×100 raster.  `dval` is the true binary64
quotient `3000/4177` (which undershoots the exact ratio), `envC6`'s
division returns it and its multiplication is exact — both within the
binary64 correct-rounding contract — yet the resize request's larger
target dimension is 2999, not 3000, refuting the claim as stated. -/
theorem C6_counterexample_larger_dim_2999 :
    height imgC6 = 4177 ∧ width imgC6 = 100 ∧
    max_dimension < height imgC6 ∧
    envC6.fdiv (max_dimension : ℚ)
      ((max (height imgC6) (width imgC6) : ℕ) : ℚ) = dval ∧
    |dval - (max_dimension : ℚ) /
        ((max (height imgC6) (width imgC6) : ℕ) : ℚ)| ≤
      (max_dimension : ℚ) /
        ((max (height imgC6) (width imgC6) : ℕ) : ℚ) * (1 / 2 ^ 53) ∧
    newDims envC6 imgC6 = (71, 2999) ∧
    resizeStep envC6 imgC6 = envC6.resize imgC6 71 2999 Interp.area ∧
    envC6.resize imgC6 71 2999 Interp.area = [[71, 2999]] := by
  have hh : height imgC6 = 4177 := by
    show (List.replicate 4177 (List.replicate 100 (0:Pixel))).length = 4177
    exact List.length_replicate _ _
  have hw : width imgC6 = 100 := by
    show ((List.replicate 4177 (List.replicate 100 (0:Pixel))).headD
      []).length = 100
    rw [show (4177 : ℕ) = 4176 + 1 from rfl, List.replicate_succ,
      List.headD_cons]
    exact List.length_replicate _ _
  have h417 : max (4177 : ℕ) 100 = 4177 := by decide
  have hmax : ((max (height imgC6) (width imgC6) : ℕ) : ℚ) = 4177 := by
    rw [hh, hw, h417]
    norm_num
  have hfd : envC6.fdiv (max_dimension : ℚ)
      ((max (height imgC6) (width imgC6) : ℕ) : ℚ) = dval := by
    rw [hmax]
    show (if (max_dimension : ℚ) = 3000 ∧ (4177 : ℚ) = 4177
      then dval else (max_dimension : ℚ) / 4177) = dval
    rw [if_pos ⟨by norm_num [max_dimension], rfl⟩]
  have hf1 : (⌊(100 : ℚ) * dval⌋ : ℤ) = 71 := by
    rw [Int.floor_eq_iff]
    norm_num [dval]
  have hf2 : (⌊(4177 : ℚ) * dval⌋ : ℤ) = 2999 := by
    rw [Int.floor_eq_iff]
    norm_num [dval]
  have hnd : newDims envC6 imgC6 = (71, 2999) := by
    simp only [newDims, hfd]
    have hm1 : envC6.fmul ((width imgC6 : ℕ) : ℚ) dval =
        (100 : ℚ) * dval := by
      rw [hw]
      norm_num [envC6, baseEnv]
    have hm2 : envC6.fmul ((height imgC6 : ℕ) : ℚ) dval =
        (4177 : ℚ) * dval := by
      rw [hh]
      norm_num [envC6, baseEnv]
    rw [hm1, hm2, hf1, hf2]
  refine ⟨hh, hw, by rw [hh]; norm_num [max_dimension], hfd, ?_, hnd, ?_, rfl⟩
  · rw [hmax]
    rw [abs_le]
    constructor <;> norm_num [dval, max_dimension]
  · have hcond : (decide (height imgC6 > max_dimension) ||
        decide (width imgC6 > max_dimension)) = true := by
      rw [hh]
      norm_num [max_dimension]
    simp [resizeStep, hcond, hnd]

/-- Witness for C6 on the spec's 6000×4000 oversized example with exact
(zero-error, contract-satisfying) float operations. -/
theorem C6_witness :
    resizeStep envC6W imgC6W =
      envC6W.resize imgC6W (newDims envC6W imgC6W).1
        (newDims envC6W imgC6W).2 Interp.area ∧
    2999 ≤ (newDims envC6W imgC6W).2 ∧ (newDims envC6W imgC6W).2 ≤ 3000 ∧
    |(newDims envC6W imgC6W).1 - (exactDims imgC6W).1| ≤ 1 := by
  have hdiv : ∀ a b : ℚ, 0 ≤ a → 0 < b →
      |envC6W.fdiv a b - a / b| ≤ a / b * (1 / 2 ^ 53) := by
    intro a b ha hb
    simp [envC6W, baseEnv]
    positivity
  have hmul : ∀ a b : ℚ, 0 ≤ a → 0 ≤ b →
      |envC6W.fmul a b - a * b| ≤ a * b * (1 / 2 ^ 53) := by
    intro a b ha hb
    simp [envC6W, baseEnv]
    positivity
  have hhw : height imgC6W = 6000 := by
    show (List.replicate 6000 (List.replicate 4000 (0:Pixel))).length = 6000
    exact List.length_replicate _ _
  have hww : width imgC6W = 4000 := by
    show ((List.replicate 6000 (List.replicate 4000 (0:Pixel))).headD
      []).length = 4000
    rw [show (6000 : ℕ) = 5999 + 1 from rfl, List.replicate_succ,
      List.headD_cons]
    exact List.length_replicate _ _
  have h := (C6_amended_resize envC6W imgC6W hdiv hmul).1
    (Or.inl (by rw [hhw]; norm_num [max_dimension]))
  have hle : width imgC6W ≤ height imgC6W := by
    rw [hhw, hww]
    norm_num
  exact ⟨h.1, (h.2.1 hle).1, (h.2.1 hle).2, h.2.2.2.1⟩

end EasyOCR
